import Mathlib

/-
Shallow embedding of the checkout settlement engine of the bookstore
backend (src/main.py together with the column declarations in
src/models.py).

Modelling conventions:
* SQL `Decimal(10,2)` columns and Python floats holding money are both
  modelled as `ℚ` with exact arithmetic; Python `round(x, 2)` is modelled
  as rounding the rational to two decimal places.
* `datetime` values are modelled as an abstract integer timeline.
* Nullable columns are modelled as `Option`; Python truthiness tests on
  numeric options (`if voucher.min_order_amount:`) are modelled by
  `truthy`, which is false on `none` and on `some 0`.
* The database session is modelled by explicit state passing: every
  endpoint takes a `DBState` and returns the new `DBState` together with
  an `Except HErr` result.  `db.rollback()` on an exception is modelled by
  returning the input state unchanged; exceptions raised by the driver at
  flush/commit time are modelled by a boolean oracle (`persistOk`).
-/

namespace Bookstore

/-- An HTTP error response (`HTTPException(status_code, detail)`); the
dynamic suffix that Python appends to some detail strings is omitted. -/
structure HErr where
  status : ℕ
  detail : String
deriving Repr, DecidableEq

instance {ε α : Type} [DecidableEq ε] [DecidableEq α] : DecidableEq (Except ε α) := fun a b =>
  match a, b with
  | Except.error e1, Except.error e2 =>
    if h : e1 = e2 then isTrue (by rw [h]) else isFalse (fun hc => by cases hc; exact h rfl)
  | Except.ok x, Except.ok y =>
    if h : x = y then isTrue (by rw [h]) else isFalse (fun hc => by cases hc; exact h rfl)
  | Except.error _, Except.ok _ => isFalse (fun hc => by cases hc)
  | Except.ok _, Except.error _ => isFalse (fun hc => by cases hc)

/-- `round(x, 2)`: rounding a money amount to two decimal places. -/
def round2 (q : ℚ) : ℚ := ((round (q * 100) : ℤ) : ℚ) / 100

/-- A rational that is representable with two decimal digits. -/
def twoDecimal (q : ℚ) : Prop := ∃ n : ℤ, q * 100 = (n : ℚ)

/-- Row of the `books` table (the columns the settlement engine touches).
`stock_quantity` and `sold_quantity` are plain SQL `Integer` columns, so
they are modelled as `ℤ` (the schema has no non-negativity constraint). -/
structure Book where
  id : ℕ
  price : ℚ
  category_id : Option ℕ
  stock_quantity : ℤ
  sold_quantity : ℤ
deriving Repr, DecidableEq

/-- Row of the `cart_items` table. -/
structure CartItem where
  user_id : ℕ
  book_id : ℕ
  quantity : ℕ
deriving Repr, DecidableEq

/-- Row of the `vouchers` table. -/
structure Voucher where
  id : ℕ
  code : String
  discount_type : String
  discount_value : ℚ
  min_order_amount : Option ℚ
  max_discount_amount : Option ℚ
  usage_limit : Option ℕ
  used_count : Option ℕ
  user_limit : Option ℤ
  start_date : ℤ
  end_date : ℤ
  is_active : Bool
  applicable_categories : List ℕ
  applicable_books : List ℕ
  excluded_categories : List ℕ
  excluded_books : List ℕ
deriving Repr, DecidableEq

/-- Row of the `voucher_usage` table. -/
structure VoucherUsage where
  voucher_id : ℕ
  user_id : ℕ
  order_id : ℕ
  discount_amount : ℚ
deriving Repr, DecidableEq

/-- Row of the `orders` table. -/
structure Order where
  id : ℕ
  order_number : String
  user_id : ℕ
  status : String
  subtotal : ℚ
  shipping_fee : ℚ
  discount_amount : ℚ
  total_amount : ℚ
  payment_method_id : Option ℕ
  payment_status : String
  voucher_id : Option ℕ
  shipping_address_id : Option ℕ
  notes : Option String
  tracking_number : Option String
  shipped_at : Option ℤ
  delivered_at : Option ℤ
  cancelled_at : Option ℤ
  cancellation_reason : Option String
  updated_at : Option ℤ
deriving Repr, DecidableEq

/-- Row of the `order_items` table. -/
structure OrderItem where
  order_id : ℕ
  book_id : ℕ
  quantity : ℕ
  unit_price : ℚ
  total_price : ℚ
deriving Repr, DecidableEq

/-- The persistent (committed) database state seen by the engine. -/
structure DBState where
  books : List Book
  cart_items : List CartItem
  vouchers : List Voucher
  usages : List VoucherUsage
  orders : List Order
  order_items : List OrderItem
deriving Repr, DecidableEq

def findBook (bs : List Book) (i : ℕ) : Option Book :=
  bs.find? (fun b => b.id == i)

def findVoucherById (s : DBState) (i : ℕ) : Option Voucher :=
  s.vouchers.find? (fun v => v.id == i)

def findVoucherByCode (s : DBState) (c : String) : Option Voucher :=
  s.vouchers.find? (fun v => v.code == c)

def findOrder (s : DBState) (i : ℕ) : Option Order :=
  s.orders.find? (fun o => o.id == i)

/-- A cart row joined with its book (`joinedload(CartItem.book)`). -/
structure CartLine where
  item : CartItem
  book : Book
deriving Repr, DecidableEq

/-- `db.query(CartItem).options(joinedload(CartItem.book)).filter(user_id)`:
the user's cart rows, each paired with its book. -/
def loadCart (s : DBState) (uid : ℕ) : List CartLine :=
  (s.cart_items.filter (fun ci => ci.user_id == uid)).filterMap
    (fun ci => (findBook s.books ci.book_id).map (fun b => CartLine.mk ci b))

/-- `subtotal = sum(float(item.book.price) * item.quantity for ...)`. -/
def subtotalOf (lines : List CartLine) : ℚ :=
  lines.foldl (fun acc l => acc + l.book.price * (l.item.quantity : ℚ)) 0

/-- `code.strip().upper()` modelled as character-wise uppercasing (the
strip of surrounding whitespace is omitted). -/
def toUpperStr (c : String) : String := String.mk (c.data.map Char.toUpper)

/-- Python truthiness of an optional numeric column. -/
def truthy (m : Option ℚ) : Bool :=
  match m with
  | none => false
  | some x => decide (x ≠ 0)

/-- `if voucher.max_discount_amount: d = min(d, max_discount_amount)`. -/
def capIfSet (m : Option ℚ) (x : ℚ) : ℚ :=
  if truthy m then min x (m.getD 0) else x

/-- `book.category_id in cats if book.category_id else False`. -/
def catMatches (cats : List ℕ) (b : Book) : Bool :=
  match b.category_id with
  | some c => cats.contains c
  | none => false

/-- A line is dropped when its book is excluded by id or category. -/
def lineExcluded (v : Voucher) (b : Book) : Bool :=
  v.excluded_books.contains b.id || catMatches v.excluded_categories b

/-- `if include_books or include_cat:` — inclusion filters configured. -/
def hasIncludeFilters (v : Voucher) : Bool :=
  !v.applicable_books.isEmpty || !v.applicable_categories.isEmpty

/-- A line matches the inclusion filters by book id or category. -/
def lineIncludeMatch (v : Voucher) (b : Book) : Bool :=
  v.applicable_books.contains b.id || catMatches v.applicable_categories b

/-- The eligible-amount accumulation loop of `_compute_voucher_for_cart`. -/
def eligibleAmount (v : Voucher) (lines : List CartLine) : ℚ :=
  lines.foldl (fun acc l =>
    if lineExcluded v l.book then acc
    else if hasIncludeFilters v && !lineIncludeMatch v l.book then acc
    else acc + l.book.price * (l.item.quantity : ℚ)) 0

/-- `db.query(func.count(VoucherUsage.id)).filter(voucher_id, user_id)`. -/
def userUsedCount (usages : List VoucherUsage) (vid uid : ℕ) : ℕ :=
  (usages.filter (fun u => u.voucher_id == vid && u.user_id == uid)).length

/-- Result quadruple of `_compute_voucher_for_cart`. -/
structure EvalResult where
  ok : Bool
  reason : String
  discount_amount : ℚ
  shipping_discount : ℚ
deriving Repr, DecidableEq

/-- `voucher.usage_limit is not None and voucher.used_count is not None
and voucher.used_count >= voucher.usage_limit`. -/
def usageLimitExhausted (v : Voucher) : Bool :=
  match v.usage_limit, v.used_count with
  | some ul, some uc => decide (ul ≤ uc)
  | _, _ => false

/-- The per-user limit check of `_compute_voucher_for_cart`. -/
def userLimitExhausted (v : Voucher) (uid : ℕ) (usages : List VoucherUsage) : Bool :=
  match v.user_limit with
  | some lim => decide (0 < lim) && decide (lim ≤ (userUsedCount usages v.id uid : ℤ))
  | none => false

/-- `if voucher.min_order_amount and float(subtotal) < float(...)`. -/
def minOrderFails (v : Voucher) (subtotal : ℚ) : Bool :=
  truthy v.min_order_amount && decide (subtotal < v.min_order_amount.getD 0)

/-- The `discount_type` dispatch of `_compute_voucher_for_cart`: the
product discount and shipping discount before the final rounding, or
`none` for an unknown type. -/
def kindPolicy (v : Voucher) (eligible shipping_fee : ℚ) : Option (ℚ × ℚ) :=
  if v.discount_type == "percentage" then
    some (capIfSet v.max_discount_amount (eligible * v.discount_value / 100), 0)
  else if v.discount_type == "fixed_amount" then
    some (capIfSet v.max_discount_amount (min v.discount_value eligible), 0)
  else if v.discount_type == "free_shipping" then
    some (0, capIfSet v.max_discount_amount shipping_fee)
  else
    none

/-- Steps 6–8 of the evaluator: eligible amount, the no-eligible-items
rejection, the kind policy, and the single final rounding. -/
def discountPhase (v : Voucher) (lines : List CartLine) (shipping_fee : ℚ) : EvalResult :=
  let eligible := eligibleAmount v lines
  if hasIncludeFilters v && decide (eligible ≤ 0) then
    EvalResult.mk false "Không có sản phẩm phù hợp điều kiện voucher" 0 0
  else
    match kindPolicy v eligible shipping_fee with
    | none => EvalResult.mk false "Loại voucher không hợp lệ" 0 0
    | some (d, sd) => EvalResult.mk true "OK" (round2 d) (round2 sd)

/-- `_compute_voucher_for_cart(voucher, user_id, cart_items, subtotal,
shipping_fee, db)` from src/main.py. -/
def computeVoucherForCart (v : Voucher) (uid : ℕ) (lines : List CartLine)
    (subtotal shipping_fee : ℚ) (now : ℤ) (usages : List VoucherUsage) : EvalResult :=
  if !v.is_active then
    EvalResult.mk false "Voucher không hoạt động" 0 0
  else if decide (now < v.start_date) || decide (v.end_date < now) then
    EvalResult.mk false "Voucher không nằm trong thời gian áp dụng" 0 0
  else if usageLimitExhausted v then
    EvalResult.mk false "Voucher đã hết lượt sử dụng" 0 0
  else if userLimitExhausted v uid usages then
    EvalResult.mk false "Bạn đã dùng hết số lần cho voucher này" 0 0
  else if minOrderFails v subtotal then
    EvalResult.mk false "Chưa đạt giá trị đơn tối thiểu" 0 0
  else
    discountPhase v lines shipping_fee

/-- Request body of `POST /api/vouchers/validate` (the unused `subtotal`
field is omitted); `items` are (book_id, quantity) pairs. -/
structure ValidateRequest where
  user_id : ℕ
  code : String
  items : Option (List (ℕ × ℕ))
  shipping_fee : Option ℚ
deriving Repr, DecidableEq

/-- `items_map.get(b.id, 1)`: the dict built from the request maps each
book id to its last supplied quantity, defaulting to 1. -/
def itemsQty (items : List (ℕ × ℕ)) (bid : ℕ) : ℕ :=
  match items.reverse.find? (fun p => p.1 == bid) with
  | some p => p.2
  | none => 1

/-- Transient cart lines built from an explicit request item list:
`db.query(Book).filter(Book.id.in_(keys))` keeps each matching book once. -/
def buildRequestCart (s : DBState) (uid : ℕ) (items : List (ℕ × ℕ)) : List CartLine :=
  (s.books.filter (fun b => items.any (fun p => p.1 == b.id))).map
    (fun b => CartLine.mk (CartItem.mk uid b.id (itemsQty items b.id)) b)

/-- Body of the response of `POST /api/vouchers/validate` (the echoed
voucher metadata is omitted). -/
structure ValidateResponse where
  valid : Bool
  reason : Option String
  subtotal : ℚ
  shipping_fee : ℚ
  discount_amount : ℚ
  shipping_discount : ℚ
  total : ℚ
deriving Repr, DecidableEq

/-- `POST /api/vouchers/validate` (`validate_voucher` in src/main.py).
The handler only queries; it never writes nor commits, so the state it
returns is the state it was given. -/
def validate_voucher (s : DBState) (req : ValidateRequest) (now : ℤ) :
    DBState × Except HErr ValidateResponse :=
  match findVoucherByCode s (toUpperStr req.code) with
  | none => (s, Except.error (HErr.mk 404 "Voucher không tồn tại"))
  | some v =>
    let lines :=
      match req.items with
      | some its => if 0 < its.length then buildRequestCart s req.user_id its
                    else loadCart s req.user_id
      | none => loadCart s req.user_id
    let st := subtotalOf lines
    let fee := req.shipping_fee.getD 0
    let r := computeVoucherForCart v req.user_id lines st fee now s.usages
    (s, Except.ok (ValidateResponse.mk r.ok (if r.ok then none else some r.reason)
          (round2 st) (round2 fee) r.discount_amount r.shipping_discount
          (round2 (st + fee - r.discount_amount - r.shipping_discount))))

/-- Request body of `POST /api/orders` (`OrderCreate`). -/
structure OrderCreateReq where
  user_id : ℕ
  shipping_address_id : ℕ
  payment_method_id : ℕ
  voucher_id : Option ℕ
  notes : Option String
deriving Repr, DecidableEq

/-- `bs.map` update of one book row (ORM attribute assignment). -/
def updateBook (bs : List Book) (bid : ℕ) (f : Book → Book) : List Book :=
  bs.map (fun b => if b.id == bid then f b else b)

/-- The unguarded stock loop of `create_order`: for each cart line,
`book.stock_quantity -= quantity; book.sold_quantity = (sold or 0) + q`. -/
def applyStockDecrement (bs : List Book) (lines : List CartLine) : List Book :=
  lines.foldl (fun acc l =>
    updateBook acc l.book.id (fun b =>
      { b with stock_quantity := b.stock_quantity - (l.item.quantity : ℤ),
               sold_quantity := b.sold_quantity + (l.item.quantity : ℤ) })) bs

/-- The guarded stock loop of `create_simple_order`: the decrement is
skipped when `stock_quantity >= quantity` fails, but the order item is
created regardless. -/
def applyStockDecrementGuarded (bs : List Book) (lines : List CartLine) : List Book :=
  lines.foldl (fun acc l =>
    updateBook acc l.book.id (fun b =>
      if (l.item.quantity : ℤ) ≤ b.stock_quantity then
        { b with stock_quantity := b.stock_quantity - (l.item.quantity : ℤ),
                 sold_quantity := b.sold_quantity + (l.item.quantity : ℤ) }
      else b)) bs

/-- The order-item creation loop: unit price and line total snapshot the
book price at load time. -/
def mkOrderItems (oid : ℕ) (lines : List CartLine) : List OrderItem :=
  lines.map (fun l =>
    OrderItem.mk oid l.item.book_id l.item.quantity l.book.price
      (l.book.price * (l.item.quantity : ℚ)))

/-- `applied_voucher.used_count = (applied_voucher.used_count or 0) + 1`. -/
def incrementUsedCount (vs : List Voucher) (vid : ℕ) : List Voucher :=
  vs.map (fun v => if v.id == vid then { v with used_count := some (v.used_count.getD 0 + 1) } else v)

/-- The write phase shared by both checkout endpoints: append the order
and its items, run the stock loop, delete the user's cart, and when a
voucher was applied insert the usage row and bump `used_count`. -/
def checkoutEffects (s : DBState) (uid : ℕ) (lines : List CartLine) (newOrder : Order)
    (av : Option Voucher) (combined : ℚ) (guarded : Bool) : DBState :=
  let s1 : DBState :=
    { s with orders := s.orders ++ [newOrder],
             order_items := s.order_items ++ mkOrderItems newOrder.id lines,
             books := if guarded then applyStockDecrementGuarded s.books lines
                      else applyStockDecrement s.books lines,
             cart_items := s.cart_items.filter (fun ci => !(ci.user_id == uid)) }
  match av with
  | some v =>
    { s1 with usages := s1.usages ++ [VoucherUsage.mk v.id uid newOrder.id combined],
              vouchers := incrementUsedCount s1.vouchers v.id }
  | none => s1

/-- The read/validation phase of `create_order` up to and including the
voucher evaluation: the loaded cart, the applied voucher, and the two
discounts, or `none` when a validation step rejects. -/
def checkoutValidate (s : DBState) (uid : ℕ) (voucherId : Option ℕ) (now : ℤ) :
    Option (List CartLine × Option Voucher × ℚ × ℚ) :=
  let lines := loadCart s uid
  if lines.isEmpty then none
  else
    match voucherId with
    | none => some (lines, none, 0, 0)
    | some vid =>
      match findVoucherById s vid with
      | none => none
      | some v =>
        let r := computeVoucherForCart v uid lines (subtotalOf lines) 0 now s.usages
        if r.ok then some (lines, some v, r.discount_amount, r.shipping_discount)
        else none

/-- The `Order(...)` constructor call shared by both checkout endpoints
(`shipping_fee` is hardcoded to `0.0` in both). -/
def mkPendingOrder (oid : ℕ) (onum : String) (uid : ℕ) (subtotal disc sdisc : ℚ)
    (pmId : Option ℕ) (vId : Option ℕ) (addrId : Option ℕ) (notes : Option String) : Order :=
  { id := oid, order_number := onum, user_id := uid, status := "pending",
    subtotal := subtotal, shipping_fee := 0, discount_amount := disc + sdisc,
    total_amount := subtotal + 0 - disc - sdisc,
    payment_method_id := pmId, payment_status := "pending", voucher_id := vId,
    shipping_address_id := addrId, notes := notes, tracking_number := none,
    shipped_at := none, delivered_at := none, cancelled_at := none,
    cancellation_reason := none, updated_at := none }

/-- `POST /api/orders` (`create_order` in src/main.py).  `currentUserId`
is the authenticated user, `oid`/`onum` the externally generated row id
and order number, `persistOk` the flush/commit oracle (a `False` models
any driver exception inside the `try` block, answered by `db.rollback()`). -/
def create_order (s : DBState) (currentUserId : ℕ) (req : OrderCreateReq)
    (now : ℤ) (oid : ℕ) (onum : String) (persistOk : Bool) :
    DBState × Except HErr Order :=
  if !(currentUserId == req.user_id) then
    (s, Except.error (HErr.mk 403 "Not authorized to create order for another user"))
  else
    let lines := loadCart s req.user_id
    if lines.isEmpty then (s, Except.error (HErr.mk 400 "Cart is empty"))
    else
      let subtotal := subtotalOf lines
      let vres : Except HErr (Option Voucher × ℚ × ℚ) :=
        match req.voucher_id with
        | none => Except.ok (none, 0, 0)
        | some vid =>
          match findVoucherById s vid with
          | none => Except.error (HErr.mk 400 "Voucher không tồn tại")
          | some v =>
            let r := computeVoucherForCart v req.user_id lines subtotal 0 now s.usages
            if r.ok then Except.ok (some v, r.discount_amount, r.shipping_discount)
            else Except.error (HErr.mk 400 ("Không áp dụng được voucher: " ++ r.reason))
      match vres with
      | Except.error e => (s, Except.error e)
      | Except.ok (av, disc, sdisc) =>
        let newOrder := mkPendingOrder oid onum req.user_id subtotal disc sdisc
          (some req.payment_method_id) req.voucher_id (some req.shipping_address_id) req.notes
        if persistOk then
          (checkoutEffects s req.user_id lines newOrder av (disc + sdisc) false,
           Except.ok newOrder)
        else (s, Except.error (HErr.mk 500 "Error creating order"))

/-- `notes or "Payment: ..."`: Python `or` also replaces the empty string. -/
def simpleNotes (notes : Option String) (paymentMethod : String) : String :=
  match notes with
  | some n => if n == "" then "Payment: " ++ paymentMethod else n
  | none => "Payment: " ++ paymentMethod

/-- `POST /api/orders/simple` (`create_simple_order` in src/main.py).
Every rejection raised inside its `try` block — including the empty-cart
and voucher rejections — is caught by the blanket `except` and resurfaced
as a 500 "Error creating order" after `db.rollback()`. -/
def create_simple_order (s : DBState) (currentUserId uid : ℕ) (paymentMethod : String)
    (notes : Option String) (voucherCode : Option String)
    (now : ℤ) (oid : ℕ) (onum : String) (persistOk : Bool) :
    DBState × Except HErr Order :=
  if !(currentUserId == uid) then
    (s, Except.error (HErr.mk 403 "Not authorized to create order for another user"))
  else
    let lines := loadCart s uid
    if lines.isEmpty then (s, Except.error (HErr.mk 500 "Error creating order"))
    else
      let subtotal := subtotalOf lines
      let vres : Except HErr (Option Voucher × ℚ × ℚ) :=
        match voucherCode with
        | none => Except.ok (none, 0, 0)
        | some c =>
          match findVoucherByCode s (toUpperStr c) with
          | none => Except.error (HErr.mk 500 "Error creating order")
          | some v =>
            let r := computeVoucherForCart v uid lines subtotal 0 now s.usages
            if r.ok then Except.ok (some v, r.discount_amount, r.shipping_discount)
            else Except.error (HErr.mk 500 "Error creating order")
      match vres with
      | Except.error e => (s, Except.error e)
      | Except.ok (av, disc, sdisc) =>
        let newOrder := mkPendingOrder oid onum uid subtotal disc sdisc
          none (av.map Voucher.id) none (some (simpleNotes notes paymentMethod))
        if persistOk then
          (checkoutEffects s uid lines newOrder av (disc + sdisc) true,
           Except.ok newOrder)
        else (s, Except.error (HErr.mk 500 "Error creating order"))

/-- `os.map` update of one order row. -/
def updateOrderRow (os : List Order) (oid : ℕ) (f : Order → Order) : List Order :=
  os.map (fun o => if o.id == oid then f o else o)

/-- `order.order_items` of a persisted order. -/
def orderItemsOf (s : DBState) (oid : ℕ) : List OrderItem :=
  s.order_items.filter (fun it => it.order_id == oid)

/-- The restock loop of `cancel_order`: for each order item,
`book.stock_quantity += quantity; book.sold_quantity -= quantity`. -/
def restoreStock (bs : List Book) (items : List OrderItem) : List Book :=
  items.foldl (fun acc it =>
    updateBook acc it.book_id (fun b =>
      { b with stock_quantity := b.stock_quantity + (it.quantity : ℤ),
               sold_quantity := b.sold_quantity - (it.quantity : ℤ) })) bs

/-- The three field assignments `cancel_order` performs on the order row. -/
def markCancelled (reason : Option String) (now : ℤ) (od : Order) : Order :=
  { od with status := "cancelled", cancelled_at := some now, cancellation_reason := reason }

/-- `POST /api/orders/{order_id}/cancel` (`cancel_order` in src/main.py). -/
def cancel_order (s : DBState) (orderId currentUserId : ℕ) (isAdmin : Bool)
    (reason : Option String) (now : ℤ) (persistOk : Bool) :
    DBState × Except HErr String :=
  match findOrder s orderId with
  | none => (s, Except.error (HErr.mk 404 "Order not found"))
  | some o =>
    if !(o.user_id == currentUserId) && !isAdmin then
      (s, Except.error (HErr.mk 403 "Not authorized to cancel this order"))
    else if o.status == "delivered" || o.status == "cancelled" then
      (s, Except.error (HErr.mk 400 "Order cannot be cancelled"))
    else if persistOk then
      ({ s with orders := updateOrderRow s.orders orderId (markCancelled reason now),
                books := restoreStock s.books (orderItemsOf s orderId) },
       Except.ok "Order cancelled successfully")
    else (s, Except.error (HErr.mk 500 "Error cancelling order"))

/-- Request body of `PUT /api/orders/{order_id}` (`OrderUpdate`). -/
structure OrderUpdateReq where
  status : Option String
  payment_status : Option String
  tracking_number : Option String
  notes : Option String
deriving Repr, DecidableEq

/-- The status block of `update_order`: set the new status and stamp the
matching timestamp; on `delivered` additionally force `payment_status`
to `paid` when it is not already; on `cancelled` only stamp — no
restock. -/
def applyStatusUpdate (o : Order) (st : String) (now : ℤ) : Order :=
  let o2 := { o with status := st }
  if st == "shipped" then { o2 with shipped_at := some now }
  else if st == "delivered" then
    let o3 := { o2 with delivered_at := some now }
    if !(o3.payment_status == "paid") then { o3 with payment_status := "paid" } else o3
  else if st == "cancelled" then { o2 with cancelled_at := some now }
  else o2

/-- The field-update block of `update_order`: the status block above,
then the optional field overwrites. -/
def applyOrderUpdate (o : Order) (u : OrderUpdateReq) (now : ℤ) : Order :=
  let o1 :=
    match u.status with
    | some st => applyStatusUpdate o st now
    | none => o
  let o4 := match u.payment_status with
    | some p => { o1 with payment_status := p }
    | none => o1
  let o5 := match u.tracking_number with
    | some t => { o4 with tracking_number := some t }
    | none => o4
  let o6 := match u.notes with
    | some n => { o5 with notes := some n }
    | none => o5
  { o6 with updated_at := some now }

/-- `PUT /api/orders/{order_id}` (`update_order` in src/main.py, admin
only): it updates the order row and nothing else — no restock runs. -/
def update_order (s : DBState) (orderId : ℕ) (u : OrderUpdateReq) (now : ℤ)
    (persistOk : Bool) : DBState × Except HErr String :=
  match findOrder s orderId with
  | none => (s, Except.error (HErr.mk 404 "Order not found"))
  | some _ =>
    if persistOk then
      ({ s with orders := updateOrderRow s.orders orderId (fun o => applyOrderUpdate o u now) },
       Except.ok "Order updated successfully")
    else (s, Except.error (HErr.mk 500 "Error updating order"))

/-- The write phase of `create_order` as it really executes inside one
database session: every attribute assignment writes the absolute value
computed from the session's own (possibly stale) snapshot objects —
`book.stock_quantity -= q` writes `snapshot_stock - q`, and
`used_count = (used_count or 0) + 1` writes `snapshot_used + 1`.  When
the session's snapshot coincides with the current state this agrees with
`checkoutEffects`; under concurrency it does not. -/
def staleCheckoutWrites (cur : DBState) (uid : ℕ) (lines : List CartLine)
    (newOrder : Order) (av : Option Voucher) (combined : ℚ) : DBState :=
  let books1 := lines.foldl (fun acc l =>
    updateBook acc l.book.id (fun b =>
      { b with stock_quantity := l.book.stock_quantity - (l.item.quantity : ℤ),
               sold_quantity := l.book.sold_quantity + (l.item.quantity : ℤ) })) cur.books
  let s1 : DBState :=
    { cur with orders := cur.orders ++ [newOrder],
               order_items := cur.order_items ++ mkOrderItems newOrder.id lines,
               books := books1,
               cart_items := cur.cart_items.filter (fun ci => !(ci.user_id == uid)) }
  match av with
  | some v =>
    { s1 with usages := s1.usages ++ [VoucherUsage.mk v.id uid newOrder.id combined],
              vouchers := s1.vouchers.map (fun w =>
                if w.id == v.id then { w with used_count := some (v.used_count.getD 0 + 1) }
                else w) }
  | none => s1

/-- Two concurrent `create_order` requests, in the interleaving the
lockless code admits (no `SELECT ... FOR UPDATE`, no compare-and-swap):
both sessions load and validate against the same committed state before
either commits, then their write phases commit one after the other, each
writing values computed from its own stale snapshot.  Returns the final
state and whether each request succeeded. -/
def concurrentCheckoutPair (s : DBState) (req1 req2 : OrderCreateReq) (now : ℤ)
    (oid1 oid2 : ℕ) (on1 on2 : String) : DBState × Bool × Bool :=
  match checkoutValidate s req1.user_id req1.voucher_id now,
        checkoutValidate s req2.user_id req2.voucher_id now with
  | some (l1, av1, d1, sd1), some (l2, av2, d2, sd2) =>
    let o1 := mkPendingOrder oid1 on1 req1.user_id (subtotalOf l1) d1 sd1
      (some req1.payment_method_id) req1.voucher_id (some req1.shipping_address_id) req1.notes
    let o2 := mkPendingOrder oid2 on2 req2.user_id (subtotalOf l2) d2 sd2
      (some req2.payment_method_id) req2.voucher_id (some req2.shipping_address_id) req2.notes
    let s1 := staleCheckoutWrites s req1.user_id l1 o1 av1 (d1 + sd1)
    let s2 := staleCheckoutWrites s1 req2.user_id l2 o2 av2 (d2 + sd2)
    (s2, true, true)
  | some (l1, av1, d1, sd1), none =>
    let o1 := mkPendingOrder oid1 on1 req1.user_id (subtotalOf l1) d1 sd1
      (some req1.payment_method_id) req1.voucher_id (some req1.shipping_address_id) req1.notes
    (staleCheckoutWrites s req1.user_id l1 o1 av1 (d1 + sd1), true, false)
  | none, some (l2, av2, d2, sd2) =>
    let o2 := mkPendingOrder oid2 on2 req2.user_id (subtotalOf l2) d2 sd2
      (some req2.payment_method_id) req2.voucher_id (some req2.shipping_address_id) req2.notes
    (staleCheckoutWrites s req2.user_id l2 o2 av2 (d2 + sd2), false, true)
  | none, none => (s, false, false)

/-! Spec-side restatements of the evaluator's checks and of the
eligible-amount recipe, written from the specification's wording, to be
compared with the definitions embedded from the source. -/

/-- Spec check 1: the active flag is true. -/
def specCheckActive (v : Voucher) : Bool := v.is_active

/-- Spec check 2: current time lies within the validity window. -/
def specCheckWindow (v : Voucher) (now : ℤ) : Bool :=
  decide (v.start_date ≤ now ∧ now ≤ v.end_date)

/-- Spec check 3: if `usage_limit` is set then `used_count < usage_limit`. -/
def specCheckUsage (ul : Option ℕ) (uc : ℕ) : Bool :=
  match ul with
  | some l => decide (uc < l)
  | none => true

/-- Spec check 4: if `user_limit` is set and positive then the count of
existing usage rows for this voucher and user is below it. -/
def specCheckUser (v : Voucher) (uid : ℕ) (usages : List VoucherUsage) : Bool :=
  match v.user_limit with
  | some lim => if 0 < lim then decide ((userUsedCount usages v.id uid : ℤ) < lim) else true
  | none => true

/-- Spec check 5: `subtotal ≥ min_order_amount` (default 0). -/
def specCheckMin (v : Voucher) (subtotal : ℚ) : Bool :=
  decide (v.min_order_amount.getD 0 ≤ subtotal)

/-- The single line's contribution to the eligible amount. -/
def lineContrib (v : Voucher) (l : CartLine) : ℚ :=
  if lineExcluded v l.book then 0
  else if hasIncludeFilters v && !lineIncludeMatch v l.book then 0
  else l.book.price * (l.item.quantity : ℚ)

/-- Eligible amount as the spec words it: first drop the excluded lines,
then (when inclusion filters are configured) keep only the matching
lines, and sum `unit_price × quantity` over what is kept. -/
def specEligibleAmount (v : Voucher) (lines : List CartLine) : ℚ :=
  (((lines.filter (fun l => !lineExcluded v l.book)).filter
      (fun l => !hasIncludeFilters v || lineIncludeMatch v l.book)).map
    (fun l => l.book.price * (l.item.quantity : ℚ))).sum

/-! Concrete states used by counterexamples and witnesses. -/

/-- A book with two-decimal price, one unit in stock. -/
def bookW : Book := Book.mk 1 10 (some 5) 1 0

/-- A state where user 7 has two copies of `bookW` in the cart while only
one is in stock. -/
def stateLowStock : DBState :=
  DBState.mk [bookW] [CartItem.mk 7 1 2] [] [] [] []

/-- A plain checkout request for user 7 without a voucher. -/
def reqPlain : OrderCreateReq := OrderCreateReq.mk 7 3 4 none none

/-- An active percentage voucher with a one-use global limit, unused. -/
def voucherOneUse : Voucher :=
  Voucher.mk 11 "ONE" "percentage" 10 none none (some 1) (some 0) none 0 100 true [] [] [] []

/-- A state with ample stock, two users each holding one cart line, and
`voucherOneUse`. -/
def stateTwoCarts : DBState :=
  DBState.mk [Book.mk 1 10 none 100 0] [CartItem.mk 7 1 1, CartItem.mk 8 1 1]
    [voucherOneUse] [] [] []

/-- An active ten-percent voucher without limits. -/
def voucherTen : Voucher :=
  Voucher.mk 11 "SALE10" "percentage" 10 (some 0) none (some 5) (some 0) (some 1) 0 100 true [] [] [] []

/-- A state with one book, one cart line for user 7, and `voucherTen`. -/
def stateVoucher : DBState :=
  DBState.mk [bookW] [CartItem.mk 7 1 2] [voucherTen] [] [] []

/-- A pending order with one line of two copies of book 1. -/
def orderPending : Order :=
  Order.mk 10 "ORD-1" 7 "pending" 20 0 0 20 (some 4) "pending" none (some 3)
    none none none none none none none

/-- A state holding `orderPending`, its single order line, and the book
with five units in stock. -/
def statePendingOrder : DBState :=
  DBState.mk [Book.mk 1 10 (some 5) 5 2] [] [voucherTen]
    [VoucherUsage.mk 11 7 10 2] [orderPending] [OrderItem.mk 10 1 2 10 20]

/-- An active free-shipping voucher with no minimum and no cap. -/
def voucherFreeShip : Voucher :=
  Voucher.mk 12 "SHIP" "free_shipping" 0 none none none (some 0) none 0 100 true [] [] [] []

/-- A state with one cart line for user 7 and `voucherFreeShip`. -/
def stateFreeShip : DBState :=
  DBState.mk [bookW] [CartItem.mk 7 1 1] [voucherFreeShip] [] [] []

/-- The order `create_order` produces from `stateLowStock` for user 7. -/
def orderLowStock : Order :=
  mkPendingOrder 100 "ORD-X" 7 20 0 0 (some 4) none (some 3) none

/-! Helper lemmas. -/

theorem round2_eq_self {q : ℚ} (h : twoDecimal q) : round2 q = q := by
  obtain ⟨n, hn⟩ := h
  unfold round2
  rw [hn, round_intCast, div_eq_iff (by norm_num : (100 : ℚ) ≠ 0)]
  linarith

theorem twoDecimal_round2 (q : ℚ) : twoDecimal (round2 q) := by
  refine ⟨round (q * 100), ?_⟩
  unfold round2
  field_simp

theorem twoDecimal_zero : twoDecimal 0 := ⟨0, by norm_num⟩

theorem twoDecimal_add {a b : ℚ} (ha : twoDecimal a) (hb : twoDecimal b) :
    twoDecimal (a + b) := by
  obtain ⟨n, hn⟩ := ha
  obtain ⟨m, hm⟩ := hb
  exact ⟨n + m, by push_cast; linarith⟩

theorem twoDecimal_sub {a b : ℚ} (ha : twoDecimal a) (hb : twoDecimal b) :
    twoDecimal (a - b) := by
  obtain ⟨n, hn⟩ := ha
  obtain ⟨m, hm⟩ := hb
  exact ⟨n - m, by push_cast; linarith⟩

theorem twoDecimal_mul_nat {a : ℚ} (ha : twoDecimal a) (k : ℕ) :
    twoDecimal (a * (k : ℚ)) := by
  obtain ⟨n, hn⟩ := ha
  exact ⟨n * k, by push_cast; linear_combination (k : ℚ) * hn⟩

theorem twoDecimal_sum {xs : List ℚ} (h : ∀ x ∈ xs, twoDecimal x) :
    twoDecimal xs.sum := by
  induction xs with
  | nil => simpa using twoDecimal_zero
  | cons a t ih =>
    rw [List.sum_cons]
    exact twoDecimal_add (h a (by simp)) (ih (fun x hx => h x (by simp [hx])))

theorem foldl_add_eq {α : Type} (f : α → ℚ) (xs : List α) (init : ℚ) :
    xs.foldl (fun acc x => acc + f x) init = init + (xs.map f).sum := by
  induction xs generalizing init with
  | nil => simp
  | cons a t ih => rw [List.foldl_cons, ih, List.map_cons, List.sum_cons]; ring

theorem subtotalOf_eq_sum (lines : List CartLine) :
    subtotalOf lines = (lines.map (fun l => l.book.price * (l.item.quantity : ℚ))).sum := by
  unfold subtotalOf
  rw [foldl_add_eq]
  ring

theorem loadCart_book_mem {s : DBState} {uid : ℕ} {l : CartLine}
    (h : l ∈ loadCart s uid) : l.book ∈ s.books := by
  unfold loadCart at h
  rw [List.mem_filterMap] at h
  obtain ⟨ci, _, hm⟩ := h
  rw [Option.map_eq_some'] at hm
  obtain ⟨b, hfind, hmk⟩ := hm
  have hb : l.book = b := by rw [← hmk]
  rw [hb]
  exact List.mem_of_find?_eq_some hfind

theorem cond_window (v : Voucher) (now : ℤ) :
    (decide (now < v.start_date) || decide (v.end_date < now)) = !specCheckWindow v now := by
  unfold specCheckWindow
  rw [← Bool.decide_or, ← decide_not, decide_eq_decide]
  omega

theorem cond_usage (v : Voucher) (uc : ℕ) (hud : v.used_count = some uc) :
    usageLimitExhausted v = !specCheckUsage v.usage_limit uc := by
  unfold usageLimitExhausted specCheckUsage
  rw [hud]
  cases v.usage_limit with
  | none => simp
  | some l =>
    rw [← decide_not, decide_eq_decide]
    omega

theorem cond_user (v : Voucher) (uid : ℕ) (usages : List VoucherUsage) :
    userLimitExhausted v uid usages = !specCheckUser v uid usages := by
  unfold userLimitExhausted specCheckUser
  cases v.user_limit with
  | none => simp
  | some lim =>
    simp only []
    by_cases hl : 0 < lim
    · rw [if_pos hl]
      simp only [decide_eq_true hl, Bool.true_and]
      rw [← decide_not, decide_eq_decide]
      omega
    · rw [if_neg hl]
      simp [hl]

theorem cond_min (v : Voucher) (subtotal : ℚ) (hs : 0 ≤ subtotal) :
    minOrderFails v subtotal = !specCheckMin v subtotal := by
  unfold minOrderFails specCheckMin truthy
  cases v.min_order_amount with
  | none => simp [hs]
  | some m =>
    by_cases hm : m = 0
    · simp [hm, hs]
    · simp only [Option.getD_some, decide_eq_true hm, Bool.true_and]
      rw [← decide_not, decide_eq_decide]
      exact not_le.symm

theorem specEligibleAmount_nil (v : Voucher) : specEligibleAmount v [] = 0 := by
  simp [specEligibleAmount]

theorem specEligibleAmount_cons (v : Voucher) (a : CartLine) (t : List CartLine) :
    specEligibleAmount v (a :: t) = lineContrib v a + specEligibleAmount v t := by
  unfold specEligibleAmount lineContrib
  by_cases h1 : lineExcluded v a.book
  · simp [h1]
  · by_cases h2 : (hasIncludeFilters v && !lineIncludeMatch v a.book) = true
    · have hpred : (!hasIncludeFilters v || lineIncludeMatch v a.book) = false := by
        cases hi : hasIncludeFilters v <;> cases hm : lineIncludeMatch v a.book <;>
          simp_all
      simp [h1, hpred, h2]
    · have hpred : (!hasIncludeFilters v || lineIncludeMatch v a.book) = true := by
        cases hi : hasIncludeFilters v <;> cases hm : lineIncludeMatch v a.book <;>
          simp_all
      simp [h1, hpred, h2]

theorem eligibleAmount_go (v : Voucher) (lines : List CartLine) (init : ℚ) :
    lines.foldl (fun acc l =>
      if lineExcluded v l.book then acc
      else if hasIncludeFilters v && !lineIncludeMatch v l.book then acc
      else acc + l.book.price * (l.item.quantity : ℚ)) init
    = init + specEligibleAmount v lines := by
  induction lines generalizing init with
  | nil => simp [specEligibleAmount_nil]
  | cons a t ih =>
    rw [List.foldl_cons, ih, specEligibleAmount_cons]
    unfold lineContrib
    split_ifs <;> ring

theorem eligibleAmount_eq_spec (v : Voucher) (lines : List CartLine) :
    eligibleAmount v lines = specEligibleAmount v lines := by
  unfold eligibleAmount
  rw [eligibleAmount_go]
  ring

theorem specEligibleAmount_nonneg (v : Voucher) (lines : List CartLine)
    (hp : ∀ l ∈ lines, 0 ≤ l.book.price) : 0 ≤ specEligibleAmount v lines := by
  unfold specEligibleAmount
  apply List.sum_nonneg
  intro x hx
  rw [List.mem_map] at hx
  obtain ⟨l, hl, hx⟩ := hx
  have hl2 : l ∈ lines := List.mem_of_mem_filter (List.mem_of_mem_filter hl)
  rw [← hx]
  exact mul_nonneg (hp l hl2) (by positivity)

/-- When the five threshold checks pass, the evaluator proceeds to the
discount computation. -/
theorem computeVoucher_pass (v : Voucher) (uid : ℕ) (lines : List CartLine)
    (subtotal fee : ℚ) (now : ℤ) (usages : List VoucherUsage) (uc : ℕ)
    (hud : v.used_count = some uc) (hs : 0 ≤ subtotal)
    (h1 : specCheckActive v = true) (h2 : specCheckWindow v now = true)
    (h3 : specCheckUsage v.usage_limit uc = true)
    (h4 : specCheckUser v uid usages = true)
    (h5 : specCheckMin v subtotal = true) :
    computeVoucherForCart v uid lines subtotal fee now usages = discountPhase v lines fee := by
  unfold computeVoucherForCart
  rw [cond_window, cond_usage v uc hud, cond_user, cond_min v subtotal hs]
  have h1' : v.is_active = true := h1
  simp [h1', h2, h3, h4, h5]

theorem capIfSet_min_form (m : Option ℚ) (fee : ℚ) :
    capIfSet m fee = min fee (if truthy m then m.getD 0 else fee) := by
  unfold capIfSet
  split_ifs <;> simp

/-! Claim theorems. -/

/-- C3: the evaluator performs its threshold checks in the fixed order
active flag, validity window, global usage limit, per-user limit, minimum
order amount, short-circuiting with the corresponding failure reason and
zero discounts on the first failing check, and proceeds to the discount
computation only when all five pass. -/
theorem voucher_threshold_order (v : Voucher) (uid : ℕ) (lines : List CartLine)
    (subtotal fee : ℚ) (now : ℤ) (usages : List VoucherUsage) (uc : ℕ)
    (hud : v.used_count = some uc) (hs : 0 ≤ subtotal) :
    computeVoucherForCart v uid lines subtotal fee now usages =
      (if !specCheckActive v then EvalResult.mk false "Voucher không hoạt động" 0 0
       else if !specCheckWindow v now then
         EvalResult.mk false "Voucher không nằm trong thời gian áp dụng" 0 0
       else if !specCheckUsage v.usage_limit uc then
         EvalResult.mk false "Voucher đã hết lượt sử dụng" 0 0
       else if !specCheckUser v uid usages then
         EvalResult.mk false "Bạn đã dùng hết số lần cho voucher này" 0 0
       else if !specCheckMin v subtotal then
         EvalResult.mk false "Chưa đạt giá trị đơn tối thiểu" 0 0
       else discountPhase v lines fee) := by
  unfold computeVoucherForCart
  rw [cond_window, cond_usage v uc hud, cond_user, cond_min v subtotal hs]
  rfl

/-- Closed instance of `voucher_threshold_order` at a concrete voucher
and cart, discharging its hypotheses. -/
theorem voucher_threshold_order_witness :
    voucherTen.used_count = some 0 ∧ (0 : ℚ) ≤ 20 ∧
    computeVoucherForCart voucherTen 7 (loadCart stateVoucher 7) 20 0 50 [] =
      (if !specCheckActive voucherTen then EvalResult.mk false "Voucher không hoạt động" 0 0
       else if !specCheckWindow voucherTen 50 then
         EvalResult.mk false "Voucher không nằm trong thời gian áp dụng" 0 0
       else if !specCheckUsage voucherTen.usage_limit 0 then
         EvalResult.mk false "Voucher đã hết lượt sử dụng" 0 0
       else if !specCheckUser voucherTen 7 [] then
         EvalResult.mk false "Bạn đã dùng hết số lần cho voucher này" 0 0
       else if !specCheckMin voucherTen 20 then
         EvalResult.mk false "Chưa đạt giá trị đơn tối thiểu" 0 0
       else discountPhase voucherTen (loadCart stateVoucher 7) 0) :=
  ⟨rfl, by norm_num,
    voucher_threshold_order voucherTen 7 (loadCart stateVoucher 7) 20 0 50 [] 0 rfl (by norm_num)⟩

/-- C2: for a voucher that passes the threshold checks, the evaluator
computes the eligible amount by the drop-excluded-then-keep-included
recipe, rejects with the no-eligible-items reason when inclusion filters
are configured and the eligible sum is zero, applies the kind policy
(percentage, fixed amount with cap, free shipping on the fee), and rounds
the final discount and shipping discount to two decimals exactly once. -/
theorem voucher_discount_computation (v : Voucher) (uid : ℕ) (lines : List CartLine)
    (subtotal fee : ℚ) (now : ℤ) (usages : List VoucherUsage) (uc : ℕ)
    (hud : v.used_count = some uc) (hs : 0 ≤ subtotal)
    (h1 : specCheckActive v = true) (h2 : specCheckWindow v now = true)
    (h3 : specCheckUsage v.usage_limit uc = true)
    (h4 : specCheckUser v uid usages = true)
    (h5 : specCheckMin v subtotal = true)
    (hp : ∀ l ∈ lines, 0 ≤ l.book.price) :
    computeVoucherForCart v uid lines subtotal fee now usages =
      (if hasIncludeFilters v = true ∧ specEligibleAmount v lines = 0 then
         EvalResult.mk false "Không có sản phẩm phù hợp điều kiện voucher" 0 0
       else if v.discount_type = "percentage" then
         EvalResult.mk true "OK"
           (round2 (capIfSet v.max_discount_amount (specEligibleAmount v lines * v.discount_value / 100)))
           (round2 0)
       else if v.discount_type = "fixed_amount" then
         EvalResult.mk true "OK"
           (round2 (capIfSet v.max_discount_amount (min v.discount_value (specEligibleAmount v lines))))
           (round2 0)
       else if v.discount_type = "free_shipping" then
         EvalResult.mk true "OK" (round2 0)
           (round2 (min fee (if truthy v.max_discount_amount then v.max_discount_amount.getD 0 else fee)))
       else EvalResult.mk false "Loại voucher không hợp lệ" 0 0) := by
  rw [computeVoucher_pass v uid lines subtotal fee now usages uc hud hs h1 h2 h3 h4 h5]
  unfold discountPhase kindPolicy
  rw [eligibleAmount_eq_spec, ← capIfSet_min_form]
  have hnn : 0 ≤ specEligibleAmount v lines := specEligibleAmount_nonneg v lines hp
  have hcond : ((hasIncludeFilters v && decide (specEligibleAmount v lines ≤ 0)) = true)
      ↔ (hasIncludeFilters v = true ∧ specEligibleAmount v lines = 0) := by
    simp only [Bool.and_eq_true, decide_eq_true_eq]
    exact and_congr_right (fun _ => ⟨fun h => le_antisymm h hnn, le_of_eq⟩)
  by_cases hif : hasIncludeFilters v = true ∧ specEligibleAmount v lines = 0
  · rw [if_pos (hcond.mpr hif), if_pos hif]
  · rw [if_neg (fun h => hif (hcond.mp h)), if_neg hif]
    simp only [beq_iff_eq]
    split_ifs <;> rfl

/-- Closed instance of `voucher_discount_computation` at a concrete
voucher and cart, discharging its hypotheses. -/
theorem voucher_discount_computation_witness :
    voucherTen.used_count = some 0 ∧ (0 : ℚ) ≤ 20 ∧
    specCheckActive voucherTen = true ∧ specCheckWindow voucherTen 50 = true ∧
    specCheckUsage voucherTen.usage_limit 0 = true ∧
    specCheckUser voucherTen 7 [] = true ∧ specCheckMin voucherTen 20 = true ∧
    (∀ l ∈ loadCart stateVoucher 7, 0 ≤ l.book.price) ∧
    computeVoucherForCart voucherTen 7 (loadCart stateVoucher 7) 20 0 50 [] =
      (if hasIncludeFilters voucherTen = true ∧ specEligibleAmount voucherTen (loadCart stateVoucher 7) = 0 then
         EvalResult.mk false "Không có sản phẩm phù hợp điều kiện voucher" 0 0
       else if voucherTen.discount_type = "percentage" then
         EvalResult.mk true "OK"
           (round2 (capIfSet voucherTen.max_discount_amount
             (specEligibleAmount voucherTen (loadCart stateVoucher 7) * voucherTen.discount_value / 100)))
           (round2 0)
       else if voucherTen.discount_type = "fixed_amount" then
         EvalResult.mk true "OK"
           (round2 (capIfSet voucherTen.max_discount_amount
             (min voucherTen.discount_value (specEligibleAmount voucherTen (loadCart stateVoucher 7)))))
           (round2 0)
       else if voucherTen.discount_type = "free_shipping" then
         EvalResult.mk true "OK" (round2 0)
           (round2 (min 0 (if truthy voucherTen.max_discount_amount then voucherTen.max_discount_amount.getD 0 else 0)))
       else EvalResult.mk false "Loại voucher không hợp lệ" 0 0) :=
  ⟨rfl, by norm_num, rfl, by decide, by decide, by decide, by decide, by decide,
    voucher_discount_computation voucherTen 7 (loadCart stateVoucher 7) 20 0 50 [] 0 rfl
      (by norm_num) rfl (by decide) (by decide) (by decide) (by decide) (by decide)⟩

/-- C1: checkout is atomic.  Every invocation of either checkout endpoint
either returns an error and leaves the state exactly as it was — no
order, no stock change, no cart deletion, no voucher-usage record — or
returns the fully formed order together with the state carrying all of
the checkout effects at once (the write phase `checkoutEffects`:
order row, order lines, stock mutation, cart deletion, usage record). -/
theorem checkout_atomic (s : DBState) (cu : ℕ) (req : OrderCreateReq) (now : ℤ)
    (oid : ℕ) (onum : String) (p : Bool)
    (s2 : DBState) (cu2 uid2 : ℕ) (pm : String) (nts vc : Option String)
    (now2 : ℤ) (oid2 : ℕ) (onum2 : String) (p2 : Bool) :
    ((∃ e, create_order s cu req now oid onum p = (s, Except.error e)) ∨
     (∃ o av cd, create_order s cu req now oid onum p =
        (checkoutEffects s req.user_id (loadCart s req.user_id) o av cd false, Except.ok o))) ∧
    ((∃ e, create_simple_order s2 cu2 uid2 pm nts vc now2 oid2 onum2 p2 = (s2, Except.error e)) ∨
     (∃ o av cd, create_simple_order s2 cu2 uid2 pm nts vc now2 oid2 onum2 p2 =
        (checkoutEffects s2 uid2 (loadCart s2 uid2) o av cd true, Except.ok o))) := by
  constructor
  · simp only [create_order]
    split
    · exact Or.inl ⟨_, rfl⟩
    · split
      · exact Or.inl ⟨_, rfl⟩
      · split
        · exact Or.inl ⟨_, rfl⟩
        · split
          · exact Or.inr ⟨_, _, _, rfl⟩
          · exact Or.inl ⟨_, rfl⟩
  · simp only [create_simple_order]
    split
    · exact Or.inl ⟨_, rfl⟩
    · split
      · exact Or.inl ⟨_, rfl⟩
      · split
        · exact Or.inl ⟨_, rfl⟩
        · split
          · exact Or.inr ⟨_, _, _, rfl⟩
          · exact Or.inl ⟨_, rfl⟩

/-- Inversion of a successful `create_order`: the persisted state and the
returned order in terms of the loaded cart and the evaluated voucher. -/
theorem create_order_ok_inv {s : DBState} {cu : ℕ} {req : OrderCreateReq} {now : ℤ}
    {oid : ℕ} {onum : String} {p : Bool} {o : Order}
    (h : (create_order s cu req now oid onum p).2 = Except.ok o) :
    ∃ av disc sdisc,
      p = true ∧
      o = mkPendingOrder oid onum req.user_id (subtotalOf (loadCart s req.user_id)) disc sdisc
            (some req.payment_method_id) req.voucher_id (some req.shipping_address_id) req.notes ∧
      (create_order s cu req now oid onum p).1 =
        checkoutEffects s req.user_id (loadCart s req.user_id) o av (disc + sdisc) false ∧
      ((req.voucher_id = none ∧ av = none ∧ disc = 0 ∧ sdisc = 0) ∨
       (∃ vid v, req.voucher_id = some vid ∧ findVoucherById s vid = some v ∧ av = some v ∧
          (computeVoucherForCart v req.user_id (loadCart s req.user_id)
              (subtotalOf (loadCart s req.user_id)) 0 now s.usages).ok = true ∧
          disc = (computeVoucherForCart v req.user_id (loadCart s req.user_id)
              (subtotalOf (loadCart s req.user_id)) 0 now s.usages).discount_amount ∧
          sdisc = (computeVoucherForCart v req.user_id (loadCart s req.user_id)
              (subtotalOf (loadCart s req.user_id)) 0 now s.usages).shipping_discount)) := by
  have hmain : (create_order s cu req now oid onum p).2 = Except.ok o → True := fun _ => trivial
  clear hmain
  simp only [create_order] at h
  split at h
  · exact absurd h (by simp)
  · split at h
    · exact absurd h (by simp)
    · rename_i hauth hempty
      split at h
      · exact absurd h (by simp)
      · rename_i vres av disc sdisc heq
        split at h
        · rename_i hpers
          refine ⟨av, disc, sdisc, hpers, ?_, ?_, ?_⟩
          · simpa using h.symm
          · have hord : o = mkPendingOrder oid onum req.user_id
                (subtotalOf (loadCart s req.user_id)) disc sdisc
                (some req.payment_method_id) req.voucher_id
                (some req.shipping_address_id) req.notes := by simpa using h.symm
            simp only [create_order]
            rw [if_neg hauth, if_neg hempty, heq]
            simp [hpers, hord]
          · revert heq
            cases hv : req.voucher_id with
            | none =>
              intro heq
              simp only [Except.ok.injEq, Prod.mk.injEq] at heq
              exact Or.inl ⟨rfl, heq.1.symm, heq.2.1.symm, heq.2.2.symm⟩
            | some vid =>
              intro heq
              cases hfv : findVoucherById s vid with
              | none =>
                simp only [hfv] at heq
                exact absurd heq (by simp)
              | some v =>
                simp only [hfv] at heq
                split at heq
                · rename_i hok
                  simp only [Except.ok.injEq, Prod.mk.injEq] at heq
                  exact Or.inr ⟨vid, v, rfl, hfv, heq.1.symm, hok, heq.2.1.symm, heq.2.2.symm⟩
                · exact absurd heq (by simp)
        · exact absurd h (by simp)

/-- C4 (behavior of the code at the failing input): `create_order` has no
stock check at all — checking out a cart holding two copies of a book
with a single unit in stock succeeds, and the book's `stock_quantity` is
driven to −1, contradicting the claimed reject-whole-checkout policy and
the non-negativity invariant. -/
theorem checkout_insufficient_stock_not_rejected :
    (∃ o, (create_order stateLowStock 7 reqPlain 0 100 "ORD-X" true).2 = Except.ok o) ∧
    (findBook (create_order stateLowStock 7 reqPlain 0 100 "ORD-X" true).1.books 1).map
      Book.stock_quantity = some (-1) := by
  exact ⟨⟨_, rfl⟩, by decide⟩

theorem checkoutEffects_order_items (s : DBState) (uid : ℕ) (lines : List CartLine)
    (o : Order) (av : Option Voucher) (cd : ℚ) (g : Bool) :
    (checkoutEffects s uid lines o av cd g).order_items =
      s.order_items ++ mkOrderItems o.id lines := by
  unfold checkoutEffects
  cases av <;> rfl

theorem checkoutEffects_vouchers (s : DBState) (uid : ℕ) (lines : List CartLine)
    (o : Order) (av : Option Voucher) (cd : ℚ) (g : Bool) :
    (checkoutEffects s uid lines o av cd g).vouchers =
      (match av with
       | some v => incrementUsedCount s.vouchers v.id
       | none => s.vouchers) := by
  unfold checkoutEffects
  cases av <;> rfl

theorem checkoutEffects_usages (s : DBState) (uid : ℕ) (lines : List CartLine)
    (o : Order) (av : Option Voucher) (cd : ℚ) (g : Bool) :
    (checkoutEffects s uid lines o av cd g).usages =
      (match av with
       | some v => s.usages ++ [VoucherUsage.mk v.id uid o.id cd]
       | none => s.usages) := by
  unfold checkoutEffects
  cases av <;> rfl

theorem orderItemsOf_fresh (olds : List OrderItem) (oid : ℕ) (lines : List CartLine)
    (hfresh : ∀ it ∈ olds, it.order_id ≠ oid) :
    (olds ++ mkOrderItems oid lines).filter (fun it => it.order_id == oid) =
      mkOrderItems oid lines := by
  rw [List.filter_append]
  have h1 : olds.filter (fun it => it.order_id == oid) = [] := by
    rw [List.filter_eq_nil_iff]
    intro it hit
    simpa using hfresh it hit
  have h2 : (mkOrderItems oid lines).filter (fun it => it.order_id == oid) =
      mkOrderItems oid lines := by
    rw [List.filter_eq_self]
    intro it hit
    unfold mkOrderItems at hit
    rw [List.mem_map] at hit
    obtain ⟨l, _, hl⟩ := hit
    simp [← hl]
  rw [h1, h2, List.nil_append]

theorem mkOrderItems_total_sum (oid : ℕ) (lines : List CartLine) :
    ((mkOrderItems oid lines).map OrderItem.total_price).sum = subtotalOf lines := by
  unfold mkOrderItems
  rw [subtotalOf_eq_sum, List.map_map]
  rfl

/-- Shape of the evaluator's result: it is either a rejection or the
`OK` result carrying the two once-rounded discounts of the kind policy. -/
theorem computeVoucher_shape (v : Voucher) (uid : ℕ) (lines : List CartLine)
    (st fee : ℚ) (now : ℤ) (usages : List VoucherUsage) :
    (computeVoucherForCart v uid lines st fee now usages).ok = false ∨
    ∃ d sd, kindPolicy v (eligibleAmount v lines) fee = some (d, sd) ∧
      computeVoucherForCart v uid lines st fee now usages =
        EvalResult.mk true "OK" (round2 d) (round2 sd) := by
  simp only [computeVoucherForCart, discountPhase]
  split
  · exact Or.inl rfl
  · split
    · exact Or.inl rfl
    · split
      · exact Or.inl rfl
      · split
        · exact Or.inl rfl
        · split
          · exact Or.inl rfl
          · split
            · exact Or.inl rfl
            · split
              · exact Or.inl rfl
              · rename_i d sd heq
                exact Or.inr ⟨d, sd, heq, rfl⟩

/-- Two-decimal subtotal when every book price is two-decimal. -/
theorem subtotalOf_twoDecimal {s : DBState} {uid : ℕ}
    (hp : ∀ b ∈ s.books, twoDecimal b.price) :
    twoDecimal (subtotalOf (loadCart s uid)) := by
  rw [subtotalOf_eq_sum]
  apply twoDecimal_sum
  intro x hx
  rw [List.mem_map] at hx
  obtain ⟨l, hl, hx⟩ := hx
  rw [← hx]
  exact twoDecimal_mul_nat (hp l.book (loadCart_book_mem hl)) _

/-- C5: for every order produced by a successful checkout, the sum of its
order lines' `total_price` equals the order's `subtotal`; the stored
`discount_amount` is the evaluator's product discount plus shipping
discount combined (zero without a voucher); and `total_amount` equals
`subtotal + shipping_fee − discount_amount` rounded to two decimals. -/
theorem order_totals_consistent (s : DBState) (cu : ℕ) (req : OrderCreateReq)
    (now : ℤ) (oid : ℕ) (onum : String) (p : Bool) (o : Order)
    (hok : (create_order s cu req now oid onum p).2 = Except.ok o)
    (hp : ∀ b ∈ s.books, twoDecimal b.price)
    (hfresh : ∀ it ∈ s.order_items, it.order_id ≠ oid) :
    ((orderItemsOf (create_order s cu req now oid onum p).1 o.id).map
        OrderItem.total_price).sum = o.subtotal ∧
    (req.voucher_id = none → o.discount_amount = 0) ∧
    (∀ vid v, req.voucher_id = some vid → findVoucherById s vid = some v →
       o.discount_amount =
         (computeVoucherForCart v req.user_id (loadCart s req.user_id) o.subtotal 0 now
            s.usages).discount_amount +
         (computeVoucherForCart v req.user_id (loadCart s req.user_id) o.subtotal 0 now
            s.usages).shipping_discount) ∧
    o.total_amount = round2 (o.subtotal + o.shipping_fee - o.discount_amount) := by
  obtain ⟨av, disc, sdisc, hpers, hord, hst, hcase⟩ := create_order_ok_inv hok
  have hoid : o.id = oid := by rw [hord]; rfl
  have hsub : o.subtotal = subtotalOf (loadCart s req.user_id) := by rw [hord]; rfl
  have hfee : o.shipping_fee = 0 := by rw [hord]; rfl
  have hdisc : o.discount_amount = disc + sdisc := by rw [hord]; rfl
  have htot : o.total_amount = subtotalOf (loadCart s req.user_id) + 0 - disc - sdisc := by
    rw [hord]; rfl
  have hd2 : twoDecimal disc ∧ twoDecimal sdisc := by
    rcases hcase with ⟨_, _, hd, hsd⟩ | ⟨vid, v, _, _, _, hvok, hd, hsd⟩
    · rw [hd, hsd]; exact ⟨twoDecimal_zero, twoDecimal_zero⟩
    · rcases computeVoucher_shape v req.user_id (loadCart s req.user_id)
        (subtotalOf (loadCart s req.user_id)) 0 now s.usages with hsh | ⟨d, sd, _, hr⟩
      · rw [hvok] at hsh; cases hsh
      · rw [hd, hsd, hr]
        exact ⟨twoDecimal_round2 d, twoDecimal_round2 sd⟩
  refine ⟨?_, ?_, ?_, ?_⟩
  · unfold orderItemsOf
    rw [hst, checkoutEffects_order_items, hoid,
      orderItemsOf_fresh s.order_items oid (loadCart s req.user_id) hfresh,
      mkOrderItems_total_sum, hsub]
  · intro hv
    rcases hcase with ⟨_, _, hd, hsd⟩ | ⟨vid, v, hv2, _⟩
    · rw [hdisc, hd, hsd]; norm_num
    · rw [hv] at hv2; cases hv2
  · intro vid v hv hfv
    rcases hcase with ⟨hv2, _⟩ | ⟨vid2, v2, hv2, hfv2, _, _, hd, hsd⟩
    · rw [hv] at hv2; cases hv2
    · rw [hv] at hv2
      have hvv : vid = vid2 := Option.some.inj hv2
      rw [← hvv] at hfv2
      rw [hfv2] at hfv
      have hv3 : v2 = v := Option.some.inj hfv
      rw [hdisc, hd, hsd, hv3, hsub]
  · have h2 : twoDecimal (o.subtotal + o.shipping_fee - o.discount_amount) := by
      rw [hsub, hfee, hdisc]
      exact twoDecimal_sub (twoDecimal_add (subtotalOf_twoDecimal hp) twoDecimal_zero)
        (twoDecimal_add hd2.1 hd2.2)
    rw [round2_eq_self h2, htot, hsub, hfee, hdisc]
    ring

/-- Closed instance of `order_totals_consistent` at a concrete checkout,
discharging its hypotheses. -/
theorem order_totals_consistent_witness :
    (create_order stateLowStock 7 reqPlain 0 100 "ORD-X" true).2 = Except.ok orderLowStock ∧
    (∀ b ∈ stateLowStock.books, twoDecimal b.price) ∧
    (∀ it ∈ stateLowStock.order_items, it.order_id ≠ 100) ∧
    (((orderItemsOf (create_order stateLowStock 7 reqPlain 0 100 "ORD-X" true).1
          orderLowStock.id).map OrderItem.total_price).sum = orderLowStock.subtotal ∧
     (reqPlain.voucher_id = none → orderLowStock.discount_amount = 0) ∧
     (∀ vid v, reqPlain.voucher_id = some vid → findVoucherById stateLowStock vid = some v →
        orderLowStock.discount_amount =
          (computeVoucherForCart v reqPlain.user_id (loadCart stateLowStock reqPlain.user_id)
             orderLowStock.subtotal 0 0 stateLowStock.usages).discount_amount +
          (computeVoucherForCart v reqPlain.user_id (loadCart stateLowStock reqPlain.user_id)
             orderLowStock.subtotal 0 0 stateLowStock.usages).shipping_discount) ∧
     orderLowStock.total_amount =
       round2 (orderLowStock.subtotal + orderLowStock.shipping_fee -
         orderLowStock.discount_amount)) := by
  have hsub20 : subtotalOf (loadCart stateLowStock 7) = 20 := by
    simp [subtotalOf, loadCart, stateLowStock, bookW, findBook]
    norm_num
  have hok : (create_order stateLowStock 7 reqPlain 0 100 "ORD-X" true).2 =
      Except.ok orderLowStock := by
    show Except.ok (mkPendingOrder 100 "ORD-X" 7 (subtotalOf (loadCart stateLowStock 7))
      0 0 (some 4) none (some 3) none) = Except.ok orderLowStock
    rw [hsub20]
    rfl
  have hp : ∀ b ∈ stateLowStock.books, twoDecimal b.price := by
    intro b hb
    simp only [stateLowStock, List.mem_singleton] at hb
    rw [hb]
    exact ⟨1000, by norm_num [bookW]⟩
  have hfresh : ∀ it ∈ stateLowStock.order_items, it.order_id ≠ 100 := by
    intro it hit
    simp [stateLowStock] at hit
  exact ⟨hok, hp, hfresh,
    order_totals_consistent stateLowStock 7 reqPlain 0 100 "ORD-X" true orderLowStock
      hok hp hfresh⟩

/-- C6 (behavior of the code at the failing interleaving): with
`voucherOneUse` (usage_limit 1, used_count 0) and two users holding
carts, the interleaving the lockless code admits — both checkouts
validate against the same committed state before either commits — ends
with BOTH succeeding: no conflict error is raised, two `VoucherUsage`
rows are recorded against a global limit of one, and the stored
`used_count`, written as an absolute value from each session's stale
snapshot, ends at 1 while two usage slots were actually consumed. -/
theorem concurrent_checkouts_both_succeed :
    (concurrentCheckoutPair stateTwoCarts (OrderCreateReq.mk 7 3 4 (some 11) none)
       (OrderCreateReq.mk 8 3 4 (some 11) none) 50 101 102 "A" "B").2 = (true, true) ∧
    ((concurrentCheckoutPair stateTwoCarts (OrderCreateReq.mk 7 3 4 (some 11) none)
       (OrderCreateReq.mk 8 3 4 (some 11) none) 50 101 102 "A" "B").1.usages.filter
          (fun u => u.voucher_id == 11)).length = 2 ∧
    (findVoucherById (concurrentCheckoutPair stateTwoCarts (OrderCreateReq.mk 7 3 4 (some 11) none)
       (OrderCreateReq.mk 8 3 4 (some 11) none) 50 101 102 "A" "B").1 11).map
      Voucher.used_count = some (some 1) := by
  refine ⟨by decide, by decide, by decide⟩

theorem find_updateOrderRow (os : List Order) (oid : ℕ) (f : Order → Order)
    (hf : ∀ o, (f o).id = o.id) :
    (updateOrderRow os oid f).find? (fun o => o.id == oid) =
      (os.find? (fun o => o.id == oid)).map f := by
  induction os with
  | nil => rfl
  | cons a t ih =>
    simp only [updateOrderRow, List.map_cons] at ih ⊢
    by_cases h : (a.id == oid) = true
    · rw [if_pos h]
      have hfa : ((f a).id == oid) = true := by rw [hf a]; exact h
      rw [List.find?_cons, List.find?_cons]
      simp only [hfa, h]
      rfl
    · rw [if_neg h]
      have hb : (a.id == oid) = false := by simpa using h
      rw [List.find?_cons, List.find?_cons]
      simp only [hb]
      exact ih

/-- C7: cancelling an order in a terminal state (`delivered` or
`cancelled`) fails with the conflict error and changes nothing; for any
other order the operation marks it cancelled, stamps `cancelled_at`,
stores the reason, restores each line's quantity to its book's stock
(and removes it from `sold_quantity`), and leaves the voucher table —
`used_count` included — and the `VoucherUsage` records untouched. -/
theorem cancel_order_semantics (s : DBState) (oid uid : ℕ) (adm : Bool)
    (reason : Option String) (now : ℤ) (o : Order)
    (ho : findOrder s oid = some o)
    (hauth : o.user_id = uid ∨ adm = true) :
    ((o.status = "delivered" ∨ o.status = "cancelled") →
       cancel_order s oid uid adm reason now true =
         (s, Except.error (HErr.mk 400 "Order cannot be cancelled"))) ∧
    (o.status ≠ "delivered" → o.status ≠ "cancelled" →
       ∃ o', findOrder (cancel_order s oid uid adm reason now true).1 oid = some o' ∧
         o'.status = "cancelled" ∧ o'.cancelled_at = some now ∧
         o'.cancellation_reason = reason ∧
         (cancel_order s oid uid adm reason now true).1.books =
           restoreStock s.books (orderItemsOf s oid) ∧
         (cancel_order s oid uid adm reason now true).1.vouchers = s.vouchers ∧
         (cancel_order s oid uid adm reason now true).1.usages = s.usages ∧
         (cancel_order s oid uid adm reason now true).2 =
           Except.ok "Order cancelled successfully") := by
  have hAuthF : (!(o.user_id == uid) && !adm) = false := by
    rcases hauth with h | h <;> simp [h]
  constructor
  · intro hterm
    have hc : (o.status == "delivered" || o.status == "cancelled") = true := by
      rcases hterm with h | h <;> simp [h]
    simp only [cancel_order, ho, hAuthF, hc]
    rfl
  · intro h1 h2
    have hc : (o.status == "delivered" || o.status == "cancelled") = false := by
      simp [h1, h2]
    have hred : cancel_order s oid uid adm reason now true =
        ({ s with orders := updateOrderRow s.orders oid (markCancelled reason now),
                  books := restoreStock s.books (orderItemsOf s oid) },
         Except.ok "Order cancelled successfully") := by
      simp only [cancel_order, ho, hAuthF, hc]
      rfl
    refine ⟨markCancelled reason now o, ?_, rfl, rfl, rfl, ?_, ?_, ?_, ?_⟩
    · rw [hred]
      unfold findOrder at ho ⊢
      simp only []
      rw [find_updateOrderRow s.orders oid (markCancelled reason now) (fun _ => rfl), ho]
      rfl
    · rw [hred]
    · rw [hred]
    · rw [hred]
    · rw [hred]

/-- Closed instance of `cancel_order_semantics` at a concrete pending
order, discharging its hypotheses. -/
theorem cancel_order_semantics_witness :
    findOrder statePendingOrder 10 = some orderPending ∧
    (orderPending.user_id = 7 ∨ false = true) ∧
    (((orderPending.status = "delivered" ∨ orderPending.status = "cancelled") →
       cancel_order statePendingOrder 10 7 false (some "late") 9 true =
         (statePendingOrder, Except.error (HErr.mk 400 "Order cannot be cancelled"))) ∧
     (orderPending.status ≠ "delivered" → orderPending.status ≠ "cancelled" →
       ∃ o', findOrder (cancel_order statePendingOrder 10 7 false (some "late") 9 true).1 10 =
           some o' ∧
         o'.status = "cancelled" ∧ o'.cancelled_at = some 9 ∧
         o'.cancellation_reason = some "late" ∧
         (cancel_order statePendingOrder 10 7 false (some "late") 9 true).1.books =
           restoreStock statePendingOrder.books (orderItemsOf statePendingOrder 10) ∧
         (cancel_order statePendingOrder 10 7 false (some "late") 9 true).1.vouchers =
           statePendingOrder.vouchers ∧
         (cancel_order statePendingOrder 10 7 false (some "late") 9 true).1.usages =
           statePendingOrder.usages ∧
         (cancel_order statePendingOrder 10 7 false (some "late") 9 true).2 =
           Except.ok "Order cancelled successfully")) :=
  ⟨rfl, Or.inl rfl,
    cancel_order_semantics statePendingOrder 10 7 false (some "late") 9 orderPending rfl
      (Or.inl rfl)⟩

theorem applyStatusUpdate_id (o : Order) (st : String) (now : ℤ) :
    (applyStatusUpdate o st now).id = o.id := by
  unfold applyStatusUpdate
  dsimp only []
  repeat' split
  all_goals rfl

theorem applyOrderUpdate_id (o : Order) (u : OrderUpdateReq) (now : ℤ) :
    (applyOrderUpdate o u now).id = o.id := by
  unfold applyOrderUpdate
  dsimp only []
  cases u.status <;> cases u.payment_status <;> cases u.tracking_number <;> cases u.notes <;>
    (first | rfl | exact applyStatusUpdate_id o _ now)

/-- The trailing optional-field overwrites of `update_order` do not touch
the status and timestamp fields, nor — when no payment status is
supplied — the payment status. -/
theorem applyOrderUpdate_status_fields (o : Order) (u : OrderUpdateReq) (now : ℤ)
    (o1 : Order)
    (h1 : (match u.status with | some st => applyStatusUpdate o st now | none => o) = o1) :
    (applyOrderUpdate o u now).status = o1.status ∧
    (applyOrderUpdate o u now).shipped_at = o1.shipped_at ∧
    (applyOrderUpdate o u now).delivered_at = o1.delivered_at ∧
    (applyOrderUpdate o u now).cancelled_at = o1.cancelled_at ∧
    (u.payment_status = none → (applyOrderUpdate o u now).payment_status = o1.payment_status) := by
  unfold applyOrderUpdate
  dsimp only []
  rw [h1]
  cases u.payment_status <;> cases u.tracking_number <;> cases u.notes <;>
    refine ⟨rfl, rfl, rfl, rfl, ?_⟩ <;> intro hp <;> (first | rfl | cases hp)

theorem applyStatusUpdate_delivered (o : Order) (now : ℤ) :
    (applyStatusUpdate o "delivered" now).status = "delivered" ∧
    (applyStatusUpdate o "delivered" now).delivered_at = some now ∧
    (applyStatusUpdate o "delivered" now).payment_status = "paid" := by
  unfold applyStatusUpdate
  dsimp only []
  rw [if_neg (by decide), if_pos (by decide)]
  by_cases h : (o.payment_status == "paid") = true
  · rw [if_neg (by simp [h])]
    exact ⟨rfl, rfl, by simpa using h⟩
  · rw [if_pos (by simp [h])]
    exact ⟨rfl, rfl, rfl⟩

/-- C8 counterexample: at a pending order holding one line of quantity 2
on a book with stock 5, the administrative transition to `cancelled`
succeeds but performs no restock — the stock stays 5 where the claimed
§4.5 restock would have produced 7. -/
theorem update_order_cancelled_no_restock :
    (update_order statePendingOrder 10
        (OrderUpdateReq.mk (some "cancelled") none none none) 5 true).2 =
      Except.ok "Order updated successfully" ∧
    (findBook (update_order statePendingOrder 10
        (OrderUpdateReq.mk (some "cancelled") none none none) 5 true).1.books 1).map
      Book.stock_quantity = some 5 ∧
    ¬ ((findBook (update_order statePendingOrder 10
        (OrderUpdateReq.mk (some "cancelled") none none none) 5 true).1.books 1).map
      Book.stock_quantity = some 7) := by
  refine ⟨by decide, by decide, by decide⟩

/-- C8 (amended): the administrative transition stamps `shipped_at` when
moving to `shipped`, stamps `delivered_at` and forces `payment_status`
to `paid` when moving to `delivered`, and when moving to `cancelled`
merely stamps `cancelled_at`: no restock runs — the book table is left
unchanged by every administrative update. -/
theorem update_order_transitions (s : DBState) (oid : ℕ) (u : OrderUpdateReq)
    (now : ℤ) (o : Order) (ho : findOrder s oid = some o) :
    (update_order s oid u now true).1.books = s.books ∧
    (u.status = some "shipped" →
       ∃ o', findOrder (update_order s oid u now true).1 oid = some o' ∧
         o'.status = "shipped" ∧ o'.shipped_at = some now) ∧
    (u.status = some "delivered" → u.payment_status = none →
       ∃ o', findOrder (update_order s oid u now true).1 oid = some o' ∧
         o'.status = "delivered" ∧ o'.delivered_at = some now ∧
         o'.payment_status = "paid") ∧
    (u.status = some "cancelled" →
       ∃ o', findOrder (update_order s oid u now true).1 oid = some o' ∧
         o'.status = "cancelled" ∧ o'.cancelled_at = some now) := by
  have hred : update_order s oid u now true =
      ({ s with orders := updateOrderRow s.orders oid (fun od => applyOrderUpdate od u now) },
       Except.ok "Order updated successfully") := by
    simp only [update_order, ho]
    rfl
  have hfind : findOrder (update_order s oid u now true).1 oid =
      some (applyOrderUpdate o u now) := by
    rw [hred]
    unfold findOrder at ho ⊢
    simp only []
    rw [find_updateOrderRow s.orders oid _ (fun od => applyOrderUpdate_id od u now), ho]
    rfl
  refine ⟨by rw [hred], ?_, ?_, ?_⟩
  · intro hu
    obtain ⟨hst, hsh, _, _, _⟩ :=
      applyOrderUpdate_status_fields o u now (applyStatusUpdate o "shipped" now) (by rw [hu])
    exact ⟨applyOrderUpdate o u now, hfind, by rw [hst]; rfl, by rw [hsh]; rfl⟩
  · intro hu hp
    obtain ⟨hst, _, hdl, _, hps⟩ :=
      applyOrderUpdate_status_fields o u now (applyStatusUpdate o "delivered" now) (by rw [hu])
    obtain ⟨h1, h2, h3⟩ := applyStatusUpdate_delivered o now
    exact ⟨applyOrderUpdate o u now, hfind, by rw [hst, h1], by rw [hdl, h2],
      by rw [hps hp, h3]⟩
  · intro hu
    obtain ⟨hst, _, _, hca, _⟩ :=
      applyOrderUpdate_status_fields o u now (applyStatusUpdate o "cancelled" now) (by rw [hu])
    exact ⟨applyOrderUpdate o u now, hfind, by rw [hst]; rfl, by rw [hca]; rfl⟩

/-- Closed instance of `update_order_transitions` at a concrete pending
order, discharging its hypothesis. -/
theorem update_order_transitions_witness :
    findOrder statePendingOrder 10 = some orderPending ∧
    ((update_order statePendingOrder 10 (OrderUpdateReq.mk (some "shipped") none none none)
        5 true).1.books = statePendingOrder.books ∧
     (some "shipped" = some "shipped" →
        ∃ o', findOrder (update_order statePendingOrder 10
            (OrderUpdateReq.mk (some "shipped") none none none) 5 true).1 10 = some o' ∧
          o'.status = "shipped" ∧ o'.shipped_at = some 5) ∧
     (some "shipped" = some "delivered" → (none : Option String) = none →
        ∃ o', findOrder (update_order statePendingOrder 10
            (OrderUpdateReq.mk (some "shipped") none none none) 5 true).1 10 = some o' ∧
          o'.status = "delivered" ∧ o'.delivered_at = some 5 ∧
          o'.payment_status = "paid") ∧
     (some "shipped" = some "cancelled" →
        ∃ o', findOrder (update_order statePendingOrder 10
            (OrderUpdateReq.mk (some "shipped") none none none) 5 true).1 10 = some o' ∧
          o'.status = "cancelled" ∧ o'.cancelled_at = some 5)) :=
  ⟨rfl, update_order_transitions statePendingOrder 10
    (OrderUpdateReq.mk (some "shipped") none none none) 5 orderPending rfl⟩

theorem create_order_shape (s : DBState) (cu : ℕ) (req : OrderCreateReq) (now : ℤ)
    (oid : ℕ) (onum : String) (p : Bool) :
    (∃ e, create_order s cu req now oid onum p = (s, Except.error e)) ∨
    (∃ o av cd, create_order s cu req now oid onum p =
       (checkoutEffects s req.user_id (loadCart s req.user_id) o av cd false, Except.ok o)) := by
  simp only [create_order]
  split
  · exact Or.inl ⟨_, rfl⟩
  · split
    · exact Or.inl ⟨_, rfl⟩
    · split
      · exact Or.inl ⟨_, rfl⟩
      · split
        · exact Or.inr ⟨_, _, _, rfl⟩
        · exact Or.inl ⟨_, rfl⟩

theorem cancel_order_voucher_frame (s : DBState) (oid uid : ℕ) (adm : Bool)
    (reason : Option String) (now : ℤ) (p : Bool) :
    (cancel_order s oid uid adm reason now p).1.vouchers = s.vouchers ∧
    (cancel_order s oid uid adm reason now p).1.usages = s.usages := by
  unfold cancel_order
  split
  · exact ⟨rfl, rfl⟩
  · split
    · exact ⟨rfl, rfl⟩
    · split
      · exact ⟨rfl, rfl⟩
      · split
        · exact ⟨rfl, rfl⟩
        · exact ⟨rfl, rfl⟩

theorem update_order_voucher_frame (s : DBState) (oid : ℕ) (u : OrderUpdateReq)
    (now : ℤ) (p : Bool) :
    (update_order s oid u now p).1.vouchers = s.vouchers ∧
    (update_order s oid u now p).1.usages = s.usages := by
  unfold update_order
  split
  · exact ⟨rfl, rfl⟩
  · split
    · exact ⟨rfl, rfl⟩
    · exact ⟨rfl, rfl⟩

/-- C9: the voucher preview/validate endpoint mutates no state — the
state it returns is exactly the state it was given; `used_count` is
incremented, by exactly one and together with exactly one inserted
`VoucherUsage` row, only by a successful checkout that applied the
voucher.  A checkout without a voucher, a failed checkout, a
cancellation, and an administrative update all leave the voucher table
and the usage records unchanged. -/
theorem validate_no_mutation :
    (∀ s req now, (validate_voucher s req now).1 = s) ∧
    (∀ s cu req now oid onum p o vid v,
       (create_order s cu req now oid onum p).2 = Except.ok o →
       req.voucher_id = some vid → findVoucherById s vid = some v →
       (create_order s cu req now oid onum p).1.vouchers =
         incrementUsedCount s.vouchers v.id ∧
       (create_order s cu req now oid onum p).1.usages =
         s.usages ++ [VoucherUsage.mk v.id req.user_id o.id o.discount_amount]) ∧
    (∀ s cu req now oid onum p o,
       (create_order s cu req now oid onum p).2 = Except.ok o → req.voucher_id = none →
       (create_order s cu req now oid onum p).1.vouchers = s.vouchers ∧
       (create_order s cu req now oid onum p).1.usages = s.usages) ∧
    (∀ s cu req now oid onum p e,
       (create_order s cu req now oid onum p).2 = Except.error e →
       (create_order s cu req now oid onum p).1 = s) ∧
    (∀ s oid uid adm reason now p,
       (cancel_order s oid uid adm reason now p).1.vouchers = s.vouchers ∧
       (cancel_order s oid uid adm reason now p).1.usages = s.usages) ∧
    (∀ s oid u now p,
       (update_order s oid u now p).1.vouchers = s.vouchers ∧
       (update_order s oid u now p).1.usages = s.usages) := by
  refine ⟨?_, ?_, ?_, ?_, ?_, ?_⟩
  · intro s req now
    unfold validate_voucher
    split <;> rfl
  · intro s cu req now oid onum p o vid v hok hv hfv
    obtain ⟨av, disc, sdisc, _, hord, hst, hcase⟩ := create_order_ok_inv hok
    rcases hcase with ⟨hv2, _⟩ | ⟨vid2, v2, hv2, hfv2, hav, _⟩
    · rw [hv] at hv2; cases hv2
    · rw [hv] at hv2
      have hvv : vid = vid2 := Option.some.inj hv2
      rw [← hvv] at hfv2
      rw [hfv2] at hfv
      have hv3 : v2 = v := Option.some.inj hfv
      have hdisc : o.discount_amount = disc + sdisc := by rw [hord]; rfl
      constructor
      · rw [hst, checkoutEffects_vouchers, hav, hv3]
      · rw [hst, checkoutEffects_usages, hav, hv3, hdisc]
  · intro s cu req now oid onum p o hok hv
    obtain ⟨av, disc, sdisc, _, hord, hst, hcase⟩ := create_order_ok_inv hok
    rcases hcase with ⟨_, hav, _⟩ | ⟨vid2, v2, hv2, _⟩
    · rw [hst, checkoutEffects_vouchers, checkoutEffects_usages, hav]
      exact ⟨rfl, rfl⟩
    · rw [hv] at hv2; cases hv2
  · intro s cu req now oid onum p e h
    rcases create_order_shape s cu req now oid onum p with ⟨e2, hE⟩ | ⟨o, av, cd, hOk⟩
    · rw [hE]
    · rw [hOk] at h; cases h
  · exact cancel_order_voucher_frame
  · exact update_order_voucher_frame

/-- Inversion of a successful `create_simple_order`: the returned order
in terms of the loaded cart and the voucher resolved by code. -/
theorem create_simple_order_ok_inv {s : DBState} {cu uid : ℕ} {pm : String}
    {nts vc : Option String} {now : ℤ} {oid : ℕ} {onum : String} {p : Bool} {o : Order}
    (h : (create_simple_order s cu uid pm nts vc now oid onum p).2 = Except.ok o) :
    ∃ av disc sdisc,
      o = mkPendingOrder oid onum uid (subtotalOf (loadCart s uid)) disc sdisc
            none (Option.map Voucher.id av) none (some (simpleNotes nts pm)) ∧
      ((vc = none ∧ av = none ∧ disc = 0 ∧ sdisc = 0) ∨
       (∃ c v, vc = some c ∧ findVoucherByCode s (toUpperStr c) = some v ∧ av = some v ∧
          (computeVoucherForCart v uid (loadCart s uid)
              (subtotalOf (loadCart s uid)) 0 now s.usages).ok = true ∧
          disc = (computeVoucherForCart v uid (loadCart s uid)
              (subtotalOf (loadCart s uid)) 0 now s.usages).discount_amount ∧
          sdisc = (computeVoucherForCart v uid (loadCart s uid)
              (subtotalOf (loadCart s uid)) 0 now s.usages).shipping_discount)) := by
  simp only [create_simple_order] at h
  split at h
  · exact absurd h (by simp)
  · split at h
    · exact absurd h (by simp)
    · split at h
      · exact absurd h (by simp)
      · rename_i vres av disc sdisc heq
        split at h
        · refine ⟨av, disc, sdisc, by simpa using h.symm, ?_⟩
          revert heq
          cases hv : vc with
          | none =>
            intro heq
            simp only [Except.ok.injEq, Prod.mk.injEq] at heq
            exact Or.inl ⟨rfl, heq.1.symm, heq.2.1.symm, heq.2.2.symm⟩
          | some c =>
            intro heq
            cases hfv : findVoucherByCode s (toUpperStr c) with
            | none =>
              simp only [hfv] at heq
              exact absurd heq (by simp)
            | some v =>
              simp only [hfv] at heq
              split at heq
              · rename_i hok
                simp only [Except.ok.injEq, Prod.mk.injEq] at heq
                exact Or.inr ⟨c, v, rfl, hfv, heq.1.symm, hok, heq.2.1.symm, heq.2.2.symm⟩
              · exact absurd heq (by simp)
        · exact absurd h (by simp)

theorem round2_zero : round2 0 = 0 := by
  unfold round2
  norm_num

theorem capIfSet_zero_nonneg (m : Option ℚ) (hm : ∀ x, m = some x → 0 ≤ x) :
    capIfSet m 0 = 0 := by
  unfold capIfSet
  split_ifs with h
  · cases m with
    | none => simp [truthy] at h
    | some x => simpa using min_eq_left (hm x rfl)
  · rfl

/-- A free-shipping voucher evaluated against a zero shipping fee grants
a zero product discount and a zero shipping discount. -/
theorem computeVoucher_free_shipping_zero (v : Voucher) (uid : ℕ) (lines : List CartLine)
    (st : ℚ) (now : ℤ) (usages : List VoucherUsage)
    (ht : v.discount_type = "free_shipping")
    (hm : ∀ x, v.max_discount_amount = some x → 0 ≤ x)
    (hok : (computeVoucherForCart v uid lines st 0 now usages).ok = true) :
    (computeVoucherForCart v uid lines st 0 now usages).discount_amount = 0 ∧
    (computeVoucherForCart v uid lines st 0 now usages).shipping_discount = 0 := by
  rcases computeVoucher_shape v uid lines st 0 now usages with hsh | ⟨d, sd, hkp, hr⟩
  · rw [hok] at hsh; cases hsh
  · unfold kindPolicy at hkp
    rw [ht] at hkp
    rw [if_neg (by decide), if_neg (by decide), if_pos (by decide)] at hkp
    simp only [Option.some.injEq, Prod.mk.injEq] at hkp
    rw [hr]
    constructor
    · show round2 d = 0
      rw [← hkp.1, round2_zero]
    · show round2 sd = 0
      rw [← hkp.2, capIfSet_zero_nonneg _ hm, round2_zero]

/-- C10: both checkout endpoints hardcode the shipping fee to zero, so
every order they create has `shipping_fee = 0`; consequently a checkout
that applies a `free_shipping` voucher (with a non-negative cap, when
set) stores a zero discount and a total equal to its subtotal — the
voucher has no monetary effect at checkout — while the preview endpoint,
which accepts a caller-supplied fee, can report a positive shipping
discount. -/
theorem checkout_shipping_fee_zero :
    (∀ s cu req now oid onum p o,
       (create_order s cu req now oid onum p).2 = Except.ok o → o.shipping_fee = 0) ∧
    (∀ s cu uid pm nts vc now oid onum p o,
       (create_simple_order s cu uid pm nts vc now oid onum p).2 = Except.ok o →
       o.shipping_fee = 0) ∧
    (∀ s cu req now oid onum p o vid v,
       (create_order s cu req now oid onum p).2 = Except.ok o →
       req.voucher_id = some vid → findVoucherById s vid = some v →
       v.discount_type = "free_shipping" →
       (∀ x, v.max_discount_amount = some x → 0 ≤ x) →
       o.discount_amount = 0 ∧ o.total_amount = o.subtotal) ∧
    (∀ s cu uid pm nts now oid onum p o c v,
       (create_simple_order s cu uid pm nts (some c) now oid onum p).2 = Except.ok o →
       findVoucherByCode s (toUpperStr c) = some v →
       v.discount_type = "free_shipping" →
       (∀ x, v.max_discount_amount = some x → 0 ≤ x) →
       o.discount_amount = 0 ∧ o.total_amount = o.subtotal) ∧
    (∃ s req now resp, (validate_voucher s req now).2 = Except.ok resp ∧
       0 < resp.shipping_discount) := by
  refine ⟨?_, ?_, ?_, ?_, ?_⟩
  · intro s cu req now oid onum p o hok
    obtain ⟨av, disc, sdisc, _, hord, _⟩ := create_order_ok_inv hok
    rw [hord]; rfl
  · intro s cu uid pm nts vc now oid onum p o hok
    obtain ⟨av, disc, sdisc, hord, _⟩ := create_simple_order_ok_inv hok
    rw [hord]; rfl
  · intro s cu req now oid onum p o vid v hok hv hfv ht hm
    obtain ⟨av, disc, sdisc, _, hord, _, hcase⟩ := create_order_ok_inv hok
    rcases hcase with ⟨hv2, _⟩ | ⟨vid2, v2, hv2, hfv2, _, hvok, hd, hsd⟩
    · rw [hv] at hv2; cases hv2
    · rw [hv] at hv2
      have hvv : vid = vid2 := Option.some.inj hv2
      rw [← hvv] at hfv2
      rw [hfv2] at hfv
      have hv3 : v2 = v := Option.some.inj hfv
      rw [hv3] at hvok hd hsd
      obtain ⟨hz1, hz2⟩ := computeVoucher_free_shipping_zero v req.user_id
        (loadCart s req.user_id) (subtotalOf (loadCart s req.user_id)) now s.usages ht hm hvok
      have hdisc : o.discount_amount = disc + sdisc := by rw [hord]; rfl
      have htot : o.total_amount = subtotalOf (loadCart s req.user_id) + 0 - disc - sdisc := by
        rw [hord]; rfl
      have hsub : o.subtotal = subtotalOf (loadCart s req.user_id) := by rw [hord]; rfl
      constructor
      · rw [hdisc, hd, hsd, hz1, hz2]; norm_num
      · rw [htot, hsub, hd, hsd, hz1, hz2]; ring
  · intro s cu uid pm nts now oid onum p o c v hok hfv ht hm
    obtain ⟨av, disc, sdisc, hord, hcase⟩ := create_simple_order_ok_inv hok
    rcases hcase with ⟨hv2, _⟩ | ⟨c2, v2, hv2, hfv2, _, hvok, hd, hsd⟩
    · cases hv2
    · have hcc : c = c2 := Option.some.inj hv2
      rw [← hcc] at hfv2
      rw [hfv2] at hfv
      have hv3 : v2 = v := Option.some.inj hfv
      rw [hv3] at hvok hd hsd
      obtain ⟨hz1, hz2⟩ := computeVoucher_free_shipping_zero v uid
        (loadCart s uid) (subtotalOf (loadCart s uid)) now s.usages ht hm hvok
      have hdisc : o.discount_amount = disc + sdisc := by rw [hord]; rfl
      have htot : o.total_amount = subtotalOf (loadCart s uid) + 0 - disc - sdisc := by
        rw [hord]; rfl
      have hsub : o.subtotal = subtotalOf (loadCart s uid) := by rw [hord]; rfl
      constructor
      · rw [hdisc, hd, hsd, hz1, hz2]; norm_num
      · rw [htot, hsub, hd, hsd, hz1, hz2]; ring
  · refine ⟨stateFreeShip, ValidateRequest.mk 7 "SHIP" none (some 30), 50, ?_⟩
    have hfv : findVoucherByCode stateFreeShip (toUpperStr "SHIP") = some voucherFreeShip := by
      decide
    simp only [validate_voucher, hfv]
    refine ⟨_, rfl, ?_⟩
    show (0 : ℚ) < round2 30
    rw [round2_eq_self ⟨3000, by norm_num⟩]
    norm_num

end Bookstore
